import Mathlib

/-!
Verification of the fire-risk analysis pipeline (src/main.py).

The program orchestrates a remote geospatial backend (Earth Engine) and a
storage backend (Google Drive).  Both backends are opaque external services;
they are modelled as oracles (functions supplied as parameters).  Pixel values
are idealized as exact rationals; the per-pixel cosine used by the aspect-score
expression (evaluated remotely by the backend) is modelled over the reals where
its numeric behaviour matters.

Shallow embedding conventions:
* a raster (`Image`) is its list of bands, each band a per-pixel value field;
  `bandNames().size()` of the source is the length of that list;
* an image-collection query is a record accumulated by the same combinator
  chain the source applies (`filterBounds`, `filterDate`, `filter(lt ...)`,
  `select`); the backend oracle maps a query to the list of matching images;
* reducing a collection (`median()`, `mean()`, `sum()`) is per-pixel, per-band
  reduction of that list; reducing an empty collection yields a zero-band
  image, exactly the case tested by the fallback conditionals of the source.
-/

namespace FireRisk

/-- Pixel coordinates of a raster cell. -/
abbrev Pixel := ℤ × ℤ

/-- One raster band: a name together with its per-pixel values. -/
structure Band where
  name : String
  val : Pixel → ℚ

/-- An image is its list of bands (source: `ee.Image`); the zero-band image
models the result of reducing an empty collection. -/
abbrev Image := List Band

/-- Value of the first band at a pixel (all claim-relevant images are
single-band); 0 on a zero-band image. -/
def valAt (img : Image) (p : Pixel) : ℚ :=
  (img.headD ⟨"", fun _ => 0⟩).val p

/-- Value of the band with the given name at a pixel (0 if absent). -/
def bandVal (img : Image) (n : String) (p : Pixel) : ℚ :=
  ((img.find? (fun b => b.name == n)).getD ⟨n, fun _ => 0⟩).val p

/-- Apply a scalar function to every pixel of every band. -/
def mapVals (f : ℚ → ℚ) (img : Image) : Image :=
  img.map (fun b => ⟨b.name, fun p => f (b.val p)⟩)

/-- Source `image.multiply(c)`. -/
def multiplyImg (img : Image) (c : ℚ) : Image := mapVals (fun v => v * c) img

/-- Source `image.subtract(c)`. -/
def subtractImg (img : Image) (c : ℚ) : Image := mapVals (fun v => v - c) img

/-- Source `a.add(b)`: per-pixel sum, bands matched positionally. -/
def addImg (a b : Image) : Image :=
  List.zipWith (fun x y => ⟨x.name, fun p => x.val p + y.val p⟩) a b

/-- Source `image.rename(n)` on a single-band image. -/
def renameImg (img : Image) (n : String) : Image :=
  match img with
  | [] => []
  | b :: _ => [⟨n, b.val⟩]

/-- Source `ee.Image(c)`: a constant raster (band named `constant`). -/
def constImg (c : ℚ) : Image := [⟨"constant", fun _ => c⟩]

/-- Source `image.select(n)`: keep only the named band. -/
def selectBand (img : Image) (n : String) : Image :=
  match img.find? (fun b => b.name == n) with
  | some b => [b]
  | none => []

/-- Source `image.normalizedDifference([b1, b2])`:
per-pixel `(b1 - b2) / (b1 + b2)`, single band `nd`. -/
def ndiff (img : Image) (b1 b2 : String) : Image :=
  [⟨"nd", fun p => (bandVal img b1 p - bandVal img b2 p)
      / (bandVal img b1 p + bandVal img b2 p)⟩]

/-- Source `image.unitScale(lo, hi)` scalar semantics. -/
def unitScaleVal (lo hi v : ℚ) : ℚ := (v - lo) / (hi - lo)

/-- Source `image.clamp(lo, hi)` scalar semantics. -/
def clampVal (lo hi v : ℚ) : ℚ := max lo (min hi v)

/-- Source `image.unitScale(lo, hi)`. -/
def unitScaleImg (img : Image) (lo hi : ℚ) : Image := mapVals (unitScaleVal lo hi) img

/-- Source `image.clamp(lo, hi)`. -/
def clampImg (img : Image) (lo hi : ℚ) : Image := mapVals (clampVal lo hi) img

/-- Geometries built by the source: a point, its fixed-radius buffer, and the
bounding box taken at export time. -/
inductive Geometry
  | point : ℚ → ℚ → Geometry
  | buffer : Geometry → ℚ → Geometry
  | bounds : Geometry → Geometry
deriving DecidableEq

/-- Study area of a run: `ee.Geometry.Point([longitude, latitude]).buffer(30000)`. -/
def areaOf (longitude latitude : ℚ) : Geometry :=
  Geometry.buffer (Geometry.point longitude latitude) 30000

/-- An image-collection query, accumulated by the same combinator chain the
source applies before reducing. -/
structure ICQuery where
  dataset : String
  boundsFilter : Option Geometry := none
  dateStart : Option String := none
  dateEnd : Option String := none
  propLtFilters : List (String × ℚ) := []
  selected : Option String := none
deriving DecidableEq

/-- Source `ee.ImageCollection(name)`. -/
def imageCollection (name : String) : ICQuery := { dataset := name }

/-- Source `.filterBounds(area)`. -/
def filterBounds (q : ICQuery) (g : Geometry) : ICQuery :=
  { q with boundsFilter := some g }

/-- Source `.filterDate(s, e)`. -/
def filterDate (q : ICQuery) (s e : String) : ICQuery :=
  { q with dateStart := some s, dateEnd := some e }

/-- Source `.filter(ee.Filter.lt(prop, v))`. -/
def filterLt (q : ICQuery) (prop : String) (v : ℚ) : ICQuery :=
  { q with propLtFilters := q.propLtFilters ++ [(prop, v)] }

/-- Source `.select(band)` on a collection. -/
def selectCol (q : ICQuery) (band : String) : ICQuery :=
  { q with selected := some band }

/-- The three reducers the source applies to collections. -/
inductive Reducer
  | median
  | mean
  | sum
deriving DecidableEq

/-- Sum of a list of rationals. -/
def sumList (l : List ℚ) : ℚ := l.foldl (fun a b => a + b) 0

/-- Mean of a list of rationals (0 on the empty list). -/
def meanList (l : List ℚ) : ℚ := sumList l / l.length

/-- Median of a list of rationals: middle of the sorted list, mean of the two
middles for even length. -/
def medianList (l : List ℚ) : ℚ :=
  let s := l.insertionSort (fun a b => a ≤ b)
  if l.length % 2 = 1 then s.getD (l.length / 2) 0
  else (s.getD (l.length / 2 - 1) 0 + s.getD (l.length / 2) 0) / 2

/-- Apply a reducer to a list of per-pixel samples. -/
def applyReducer (r : Reducer) (l : List ℚ) : ℚ :=
  match r with
  | Reducer.median => medianList l
  | Reducer.mean => meanList l
  | Reducer.sum => sumList l

/-- Reduce a collection (list of images) to one image, per pixel and per band;
an empty collection reduces to the zero-band image (the case that the
fallback conditionals of the source test via `bandNames().size()`). -/
def reduceCol (r : Reducer) (imgs : List Image) : Image :=
  match imgs with
  | [] => []
  | i :: _ => i.map (fun b =>
      ⟨b.name, fun p => applyReducer r (imgs.map (fun im => bandVal im b.name p))⟩)

/-- Source date constant start, 2023-07-01. -/
def startDate : String := "2023-07-01"

/-- Source date constant end, 2023-08-31. -/
def endDate : String := "2023-08-31"

/-- The Sentinel-2 query of the source (lines 31-34): bounds, the shared date
window, and the cloud-cover pre-filter. -/
def s2Query (area : Geometry) : ICQuery :=
  filterLt (filterDate (filterBounds (imageCollection "COPERNICUS/S2_SR") area)
    startDate endDate) "CLOUDY_PIXEL_PERCENTAGE" 10

/-- The MODIS LST query of the source (lines 45-48). -/
def lstQuery (area : Geometry) : ICQuery :=
  selectCol (filterDate (filterBounds (imageCollection "MODIS/006/MOD11A2") area)
    startDate endDate) "LST_Day_1km"

/-- The CHIRPS rainfall query of the source (lines 59-61), with the wider
start date. -/
def chirpsQuery (area : Geometry) : ICQuery :=
  filterDate (filterBounds (imageCollection "UCSB-CHG/CHIRPS/DAILY") area)
    "2023-06-01" endDate

/-- Source lines 36-42: the NDVI conditional.  A single `ee.Algorithms.If` on
`bandNames().size().gt(0)` selects between the normalized difference of the
median and the constant-0 fallback. -/
def ndviOf (s2_median : Image) : Image :=
  if 0 < s2_median.length then renameImg (ndiff s2_median "B8" "B4") "NDVI"
  else renameImg (constImg 0) "NDVI"

/-- Source lines 50-56: the LST conditional.  The then-branch converts raw
digital values to Celsius (`multiply(0.02).subtract(273.15)`); the else-branch
is the constant-25 fallback. -/
def lstOf (lstImage : Image) : Image :=
  if 0 < lstImage.length then
    renameImg (subtractImg (multiplyImg lstImage 0.02) 273.15) "LST"
  else renameImg (constImg 25) "LST"

/-- Source lines 63-69: the precipitation conditional with the constant-10
fallback. -/
def precipOf (precipImage : Image) : Image :=
  if 0 < precipImage.length then renameImg precipImage "Precip"
  else renameImg (constImg 10) "Precip"

/-- Source line 78: `ndvi.unitScale(0, 1).clamp(0, 1)`. -/
def ndviNormOf (ndvi : Image) : Image := clampImg (unitScaleImg ndvi 0 1) 0 1

/-- Source line 79: `lst.unitScale(20, 45).clamp(0, 1)`. -/
def lstNormOf (lst : Image) : Image := clampImg (unitScaleImg lst 20 45) 0 1

/-- Source line 80: `slope.unitScale(0, 60).clamp(0, 1)`. -/
def slopeNormOf (slope : Image) : Image := clampImg (unitScaleImg slope 0 60) 0 1

/-- Source line 84: `precip.unitScale(0, 150).clamp(0, 1)`. -/
def precipNormOf (precip : Image) : Image := clampImg (unitScaleImg precip 0 150) 0 1

/-- Source lines 81-83: the aspect-score expression
`cos((aspect - 180) * 3.1416 / 180)` applied per pixel and renamed.  The
cosine itself is evaluated by the remote backend; it is passed in as `cosOp`
(its idealized real semantics is `aspectScoreVal` below). -/
def aspectExprOf (cosOp : ℚ → ℚ) (aspect : Image) : Image :=
  renameImg (mapVals (fun a => cosOp ((a - 180) * 3.1416 / 180)) aspect) "Aspect_Score"

/-- Source lines 87-92: the fire-risk weighted sum
`lst*0.3 + ndvi*(-0.3) + slope*0.15 + aspect*0.15 + precip*(-0.1)`, renamed. -/
def fireRiskOf (lst_norm ndvi_norm slope_norm aspect_south precip_norm : Image) : Image :=
  renameImg
    (addImg (addImg (addImg (addImg (multiplyImg lst_norm 0.3)
      (multiplyImg ndvi_norm (-0.3))) (multiplyImg slope_norm 0.15))
      (multiplyImg aspect_south 0.15)) (multiplyImg precip_norm (-0.1)))
    "Fire_Risk"

/-- One export job as submitted by `export_layer` (source lines 95-105);
`fname` is the fileNamePrefix argument. -/
structure ExportTask where
  image : Image
  description : String
  folder : String
  fname : String
  region : Geometry
  scale : ℚ
  maxPixels : ℚ

/-- Source `export_layer` (lines 95-105): one Drive export job per raster. -/
def export_layer (image : Image) (name : String) (area : Geometry) : ExportTask :=
  { image := image, description := name, folder := "EarthEnginefatemeh",
    fname := name, region := Geometry.bounds area, scale := 30,
    maxPixels := 10000000000000 }

/-- The remote computation backend as an oracle: which images a query matches,
the terrain product `ee.Algorithms.Terrain(ee.Image("USGS/SRTMGL1_003").clip(area))`
(bands `slope` and `aspect`), and the evaluation of `cos` inside per-pixel
expressions. -/
structure Backend where
  query : ICQuery → List Image
  terrain : Geometry → Image
  cosOp : ℚ → ℚ

/-- Source `run_fire_risk_analysis` (lines 15-117): build the area, fetch the
three remote signals with their fallbacks, derive terrain, normalize, composite
the risk index, and dispatch the six export jobs (returned in dispatch order). -/
def run_fire_risk_analysis (b : Backend) (longitude latitude : ℚ) : List ExportTask :=
  let area := areaOf longitude latitude
  let s2_median := reduceCol Reducer.median (b.query (s2Query area))
  let ndvi := ndviOf s2_median
  let lstImage := reduceCol Reducer.mean (b.query (lstQuery area))
  let lst := lstOf lstImage
  let precipImage := reduceCol Reducer.sum (b.query (chirpsQuery area))
  let precip := precipOf precipImage
  let terrain := b.terrain area
  let slope := renameImg (selectBand terrain "slope") "Slope"
  let aspect := renameImg (selectBand terrain "aspect") "Aspect"
  let ndvi_norm := ndviNormOf ndvi
  let lst_norm := lstNormOf lst
  let slope_norm := slopeNormOf slope
  let aspect_south := aspectExprOf b.cosOp aspect
  let precip_norm := precipNormOf precip
  let fireRisk := fireRiskOf lst_norm ndvi_norm slope_norm aspect_south precip_norm
  [export_layer ndvi ("NDVI_" ++ toString latitude ++ "_" ++ toString longitude) area,
   export_layer lst ("LST_" ++ toString latitude ++ "_" ++ toString longitude) area,
   export_layer precip ("Precip_" ++ toString latitude ++ "_" ++ toString longitude) area,
   export_layer slope ("Slope_" ++ toString latitude ++ "_" ++ toString longitude) area,
   export_layer aspect_south
     ("Aspect_Score_" ++ toString latitude ++ "_" ++ toString longitude) area,
   export_layer fireRisk
     ("Fire_Risk_" ++ toString latitude ++ "_" ++ toString longitude) area]

/-- A file on the storage backend, as seen through the Drive listing API. -/
structure DriveFile where
  id : String
  title : String
  content : String
deriving DecidableEq

/-- The storage backend as an oracle over its two listing queries:
`listFoldersNamed n` models `ListFile(title=n, folder mimeType, not trashed)`,
`listChildren i` models `ListFile(i in parents, not trashed)`. -/
structure Drive where
  listFoldersNamed : String → List DriveFile
  listChildren : String → List DriveFile

/-- Source `download_exports_from_drive` (lines 122-152): locate the well-known
folder (raising if absent, message of line 138 modulo the quote characters),
list its contents, and download every file to `downloads/` under its original
title.  The result is the ordered list of (local path, content) writes. -/
def download_exports_from_drive (drive : Drive) : Except String (List (String × String)) :=
  let folder_name := "EarthEnginefatemeh"
  let file_list := drive.listFoldersNamed folder_name
  match file_list with
  | [] => Except.error ("Folder " ++ folder_name ++ " not found in Drive")
  | first :: _ =>
    let files := drive.listChildren first.id
    Except.ok (files.map (fun f => ("downloads/" ++ f.title, f.content)))

/-- Apply a list of downloads to a local filesystem (path to content) in
order; each `GetContentFile` overwrites the path it writes. -/
def applyDownloads (fs : String → Option String) (writes : List (String × String)) :
    String → Option String :=
  writes.foldl (fun acc w => fun path => if path = w.1 then some w.2 else acc path) fs

/-- The static province table (source lines 158-189). -/
def PROVINCES : List (String × ℚ × ℚ) :=
  [("Tehran", 35.6892, 51.3890),
   ("Isfahan", 32.6519, 51.6680),
   ("Fars", 29.5893, 52.5311),
   ("Razavi Khorasan", 36.3000, 59.6000),
   ("Mazandaran", 36.5525, 53.0762),
   ("Kurdistan", 34.7800, 46.5300),
   ("Khuzestan", 31.9391, 48.6692),
   ("East Azerbaijan", 38.0700, 46.2960),
   ("West Azerbaijan", 37.5300, 45.0000),
   ("Ardabil", 38.2500, 48.3000),
   ("Zanjan", 36.6764, 48.4963),
   ("Qazvin", 36.2700, 50.0000),
   ("Gilan", 37.2800, 49.5832),
   ("Golestan", 36.8400, 54.4300),
   ("Semnan", 35.5700, 53.4000),
   ("Alborz", 35.8400, 50.9400),
   ("Qom", 34.6400, 50.8800),
   ("Markazi", 34.1000, 49.7000),
   ("Hamedan", 34.8000, 48.5000),
   ("Ilam", 33.6300, 46.4200),
   ("Lorestan", 33.5800, 48.3500),
   ("Chaharmahal and Bakhtiari", 32.3200, 50.8600),
   ("Kohgiluyeh and Boyer-Ahmad", 30.6500, 51.6000),
   ("Bushehr", 28.9200, 50.8300),
   ("Hormozgan", 27.2000, 56.3700),
   ("Sistan and Baluchestan", 29.4900, 60.8500),
   ("Kerman", 30.2839, 57.0834),
   ("Yazd", 31.8974, 54.3569),
   ("South Khorasan", 32.8700, 59.2200),
   ("North Khorasan", 37.4700, 57.3300)]

/-- Map boundary constant (source line 192). -/
def MIN_LAT : ℚ := 25

/-- Map boundary constant (source line 192). -/
def MAX_LAT : ℚ := 39

/-- Map boundary constant (source line 193). -/
def MIN_LON : ℚ := 44

/-- Map boundary constant (source line 193). -/
def MAX_LON : ℚ := 63

/-- Canvas width (source line 194). -/
def WIDTH : ℚ := 800

/-- Canvas height (source line 194). -/
def HEIGHT : ℚ := 1000

/-- Python `int()`: truncation toward zero. -/
def pyInt (q : ℚ) : ℤ := if 0 ≤ q then ⌊q⌋ else -⌊-q⌋

/-- Source `geo_to_pixel` (lines 197-201): linear rescale, then `int()`. -/
def geo_to_pixel (lat lon : ℚ) : ℤ × ℤ :=
  (pyInt ((lon - MIN_LON) / (MAX_LON - MIN_LON) * WIDTH),
   pyInt ((MAX_LAT - lat) / (MAX_LAT - MIN_LAT) * HEIGHT))

/-- Source `pixel_to_geo` (lines 204-208): returns (lat, lon). -/
def pixel_to_geo (x y : ℚ) : ℚ × ℚ :=
  (MAX_LAT - y / HEIGHT * (MAX_LAT - MIN_LAT),
   x / WIDTH * (MAX_LON - MIN_LON) + MIN_LON)

/-- Source line 219: `math.hypot(lat - plat, lon - plon)` for a click point
`geo = (lat, lon)` and a province entry `(name, plat, plon)`. -/
noncomputable def provDist (geo : ℚ × ℚ) (pr : String × ℚ × ℚ) : ℝ :=
  Real.sqrt (((geo.1 : ℝ) - (pr.2.1 : ℝ)) ^ 2 + ((geo.2 : ℝ) - (pr.2.2 : ℝ)) ^ 2)

/-- One iteration of the nearest-province loop (source lines 218-222): replace
the accumulator exactly when the distance is strictly smaller; the initial
`min_dist` is `float("inf")`, modelled as `⊤` in `WithTop ℝ`. -/
noncomputable def nearestStep (geo : ℚ × ℚ)
    (acc : Option (String × ℚ × ℚ) × WithTop ℝ) (pr : String × ℚ × ℚ) :
    Option (String × ℚ × ℚ) × WithTop ℝ :=
  if (provDist geo pr : WithTop ℝ) < acc.2 then (some pr, (provDist geo pr : WithTop ℝ))
  else acc

/-- The nearest-province selection of `on_map_click` (source lines 215-222). -/
noncomputable def nearestProvince (geo : ℚ × ℚ) : Option (String × ℚ × ℚ) :=
  (PROVINCES.foldl (nearestStep geo) (none, ⊤)).1

/-- Observable steps of the click handler, in program order. -/
inductive Event
  | exportJob : String → Event
  | sleep : ℕ → Event
  | download : Event
deriving DecidableEq

/-- Python `range(start, stop, -1)` for integer bounds. -/
def rangeStepNeg (start stop : ℤ) : List ℤ :=
  (List.range (start - stop).toNat).map (fun i => start - i)

/-- Source `on_map_click` (lines 211-238) as its trace of observable steps:
convert the click to geographic coordinates, select the nearest province, and
if one was selected run the analysis (dispatching six export jobs), sleep
1 second for each element of `range(60, 0, -1)`, then start the download. -/
noncomputable def on_map_click (b : Backend) (x y : ℤ) : List Event :=
  match nearestProvince (pixel_to_geo (x : ℚ) (y : ℚ)) with
  | none => []
  | some pr =>
    (run_fire_risk_analysis b pr.2.2 pr.2.1).map (fun t => Event.exportJob t.description)
      ++ (rangeStepNeg 60 0).map (fun _ => Event.sleep 1)
      ++ [Event.download]

/-- The aspect-score expression of source lines 81-83,
`cos((aspect - 180) * 3.1416 / 180)`, as its idealized real-number semantics
(this is the function the remote backend evaluates per pixel). -/
noncomputable def aspectScoreVal (a : ℝ) : ℝ :=
  Real.cos ((a - 180) * 3.1416 / 180)

/-- Modelled from the spec: the aspect-score formula as the spec states it,
`cos((aspect_degrees − 180) × π / 180)` with the exact constant π, for
comparison with `aspectScoreVal` (the code uses the literal 3.1416). -/
noncomputable def aspectScoreSpecVal (a : ℝ) : ℝ :=
  Real.cos ((a - 180) * Real.pi / 180)

lemma clamp01_bounds (v : ℚ) : 0 ≤ clampVal 0 1 v ∧ clampVal 0 1 v ≤ 1 := by
  unfold clampVal
  exact ⟨le_max_left 0 (min 1 v), max_le zero_le_one (min_le_left 1 v)⟩

/-- C1: the composite risk raster is a pure deterministic function of its five
normalized inputs; per pixel it equals the literal weighted sum
`0.30*LST - 0.30*NDVI + 0.15*Slope + 0.15*AspectSouth - 0.10*Precip`, and equal
inputs give equal output rasters. -/
theorem c1_risk_formula (L N S A P : Image) (p : Pixel)
    (hL : L ≠ []) (hN : N ≠ []) (hS : S ≠ []) (hA : A ≠ []) (hP : P ≠ []) :
    valAt (fireRiskOf L N S A P) p =
      0.30 * valAt L p - 0.30 * valAt N p + 0.15 * valAt S p
        + 0.15 * valAt A p - 0.10 * valAt P p ∧
    (∀ L2 N2 S2 A2 P2, L = L2 → N = N2 → S = S2 → A = A2 → P = P2 →
      fireRiskOf L N S A P = fireRiskOf L2 N2 S2 A2 P2) := by
  obtain ⟨bL, tL, rfl⟩ := List.exists_cons_of_ne_nil hL
  obtain ⟨bN, tN, rfl⟩ := List.exists_cons_of_ne_nil hN
  obtain ⟨bS, tS, rfl⟩ := List.exists_cons_of_ne_nil hS
  obtain ⟨bA, tA, rfl⟩ := List.exists_cons_of_ne_nil hA
  obtain ⟨bP, tP, rfl⟩ := List.exists_cons_of_ne_nil hP
  constructor
  · simp only [fireRiskOf, multiplyImg, addImg, renameImg, mapVals, valAt,
      List.map_cons, List.zipWith_cons_cons, List.headD_cons]
    ring
  · rintro _ _ _ _ _ rfl rfl rfl rfl rfl
    rfl

/-- Witness for C1: the hand-computed scalar example of the spec,
LST_norm = 1 and the four other inputs 0 give risk 0.30. -/
theorem c1_risk_formula_witness :
    valAt (fireRiskOf [⟨"LST", fun _ => 1⟩] [⟨"NDVI", fun _ => 0⟩]
      [⟨"Slope", fun _ => 0⟩] [⟨"Aspect_Score", fun _ => 0⟩]
      [⟨"Precip", fun _ => 0⟩]) (0, 0) = 0.30 := by
  have h := (c1_risk_formula [⟨"LST", fun _ => 1⟩] [⟨"NDVI", fun _ => 0⟩]
    [⟨"Slope", fun _ => 0⟩] [⟨"Aspect_Score", fun _ => 0⟩] [⟨"Precip", fun _ => 0⟩]
    (0, 0) (List.cons_ne_nil _ _) (List.cons_ne_nil _ _) (List.cons_ne_nil _ _)
    (List.cons_ne_nil _ _) (List.cons_ne_nil _ _)).1
  rw [h]
  norm_num [valAt]

/-- C2: when a reduced collection raster has zero bands, each of the three
fetchers substitutes the constant default raster (0 for NDVI, 25 for LST,
10 for Precip), uniformly over every pixel, and the result is a one-band
raster carrying the signal name rather than an empty raster. -/
theorem c2_fallback_defaults (r1 r2 r3 : Image) (p : Pixel)
    (h1 : r1.length = 0) (h2 : r2.length = 0) (h3 : r3.length = 0) :
    valAt (ndviOf r1) p = 0 ∧ (ndviOf r1).map Band.name = ["NDVI"] ∧
    valAt (lstOf r2) p = 25 ∧ (lstOf r2).map Band.name = ["LST"] ∧
    valAt (precipOf r3) p = 10 ∧ (precipOf r3).map Band.name = ["Precip"] := by
  rw [List.length_eq_zero] at h1 h2 h3
  subst h1; subst h2; subst h3
  simp [ndviOf, lstOf, precipOf, constImg, renameImg, valAt]

/-- Witness for C2: all three fallbacks evaluated on the empty reduced raster
at a concrete pixel. -/
theorem c2_fallback_defaults_witness :
    valAt (ndviOf []) (0, 0) = 0 ∧ (ndviOf []).map Band.name = ["NDVI"] ∧
    valAt (lstOf []) (0, 0) = 25 ∧ (lstOf []).map Band.name = ["LST"] ∧
    valAt (precipOf []) (0, 0) = 10 ∧ (precipOf []).map Band.name = ["Precip"] :=
  c2_fallback_defaults [] [] [] (0, 0) rfl rfl rfl

/-- C3: every normalized signal value lies in [0,1], for arbitrary input
values; inputs 1000 above the domain maximum clamp to exactly 1 and inputs
1000 below the domain minimum clamp to exactly 0, for each of the four
linearly rescaled signals (NDVI 0..1, LST 20..45, Slope 0..60, Precip 0..150). -/
theorem c3_normalizer_clamps (img : Image) (p : Pixel) (h : img ≠ []) :
    (0 ≤ valAt (ndviNormOf img) p ∧ valAt (ndviNormOf img) p ≤ 1) ∧
    (0 ≤ valAt (lstNormOf img) p ∧ valAt (lstNormOf img) p ≤ 1) ∧
    (0 ≤ valAt (slopeNormOf img) p ∧ valAt (slopeNormOf img) p ≤ 1) ∧
    (0 ≤ valAt (precipNormOf img) p ∧ valAt (precipNormOf img) p ≤ 1) ∧
    (valAt img p = 1 + 1000 → valAt (ndviNormOf img) p = 1) ∧
    (valAt img p = 0 - 1000 → valAt (ndviNormOf img) p = 0) ∧
    (valAt img p = 45 + 1000 → valAt (lstNormOf img) p = 1) ∧
    (valAt img p = 20 - 1000 → valAt (lstNormOf img) p = 0) ∧
    (valAt img p = 60 + 1000 → valAt (slopeNormOf img) p = 1) ∧
    (valAt img p = 0 - 1000 → valAt (slopeNormOf img) p = 0) ∧
    (valAt img p = 150 + 1000 → valAt (precipNormOf img) p = 1) ∧
    (valAt img p = 0 - 1000 → valAt (precipNormOf img) p = 0) := by
  obtain ⟨b, t, rfl⟩ := List.exists_cons_of_ne_nil h
  have hval : valAt (b :: t) p = b.val p := rfl
  have hn : ∀ lo hi : ℚ, valAt (clampImg (unitScaleImg (b :: t) lo hi) 0 1) p
      = clampVal 0 1 (unitScaleVal lo hi (b.val p)) := fun _ _ => rfl
  simp only [ndviNormOf, lstNormOf, slopeNormOf, precipNormOf, hn, hval]
  refine ⟨clamp01_bounds _, clamp01_bounds _, clamp01_bounds _, clamp01_bounds _,
    ?_, ?_, ?_, ?_, ?_, ?_, ?_, ?_⟩ <;>
    (intro hv; rw [hv]; norm_num [clampVal, unitScaleVal, min_def, max_def])

/-- Witness for C3: a raster uniformly 1045 (1000 above the LST maximum 45)
normalizes to exactly 1 through the LST normalizer. -/
theorem c3_normalizer_clamps_witness :
    valAt (lstNormOf [⟨"LST", fun _ => 45 + 1000⟩]) (0, 0) = 1 :=
  (c3_normalizer_clamps [⟨"LST", fun _ => 45 + 1000⟩] (0, 0)
    (List.cons_ne_nil _ _)).2.2.2.2.2.2.1 rfl

lemma neg_one_lt_cos_d4 : -1 < Real.cos 3.1416 := by
  have hlt : Real.pi < 3.1416 := Real.pi_lt_d4
  have hgt : (3 : ℝ) < Real.pi := Real.pi_gt_three
  have h0 : (0 : ℝ) < 3.1416 - Real.pi := by linarith
  have hle : (3.1416 : ℝ) - Real.pi ≤ Real.pi := by linarith
  have hc : Real.cos (3.1416 - Real.pi) < 1 := by
    have := Real.cos_lt_cos_of_nonneg_of_le_pi (le_refl 0) hle h0
    rwa [Real.cos_zero] at this
  have hrw := Real.cos_add_pi (3.1416 - Real.pi)
  rw [show (3.1416 : ℝ) - Real.pi + Real.pi = (3.1416 : ℝ) by ring] at hrw
  rw [hrw]
  linarith

/-- C4, counterexample: the aspect score of the code is
`cos((a - 180) * 3.1416 / 180)` with the literal constant 3.1416, not π, so at
aspect 0° the score differs from the spec formula
`cos((a − 180) × π / 180)` and is not exactly −1. -/
theorem c4_counterexample :
    aspectScoreVal 0 ≠ -1 ∧ aspectScoreSpecVal 0 = -1 ∧
    aspectScoreVal 0 ≠ aspectScoreSpecVal 0 := by
  have hval : aspectScoreVal 0 = Real.cos 3.1416 := by
    unfold aspectScoreVal
    rw [show ((0 : ℝ) - 180) * 3.1416 / 180 = -3.1416 by ring, Real.cos_neg]
  have hspec : aspectScoreSpecVal 0 = -1 := by
    unfold aspectScoreSpecVal
    rw [show ((0 : ℝ) - 180) * Real.pi / 180 = -Real.pi by ring, Real.cos_neg,
      Real.cos_pi]
  refine ⟨?_, hspec, ?_⟩
  · rw [hval]
    exact (neg_one_lt_cos_d4).ne'
  · rw [hval, hspec]
    exact (neg_one_lt_cos_d4).ne'

/-- C4, amended: the aspect score equals `cos((a - 180) * 3.1416 / 180)` (the
code approximates π by 3.1416), always lies in [−1, 1]; aspect 180° gives
exactly 1, aspect 0° and 360° give equal scores strictly greater than −1
(approximately but not exactly −1). -/
theorem c4_amended (a : ℝ) :
    aspectScoreVal a = Real.cos ((a - 180) * 3.1416 / 180) ∧
    -1 ≤ aspectScoreVal a ∧ aspectScoreVal a ≤ 1 ∧
    aspectScoreVal 180 = 1 ∧
    aspectScoreVal 0 = aspectScoreVal 360 ∧
    -1 < aspectScoreVal 0 := by
  refine ⟨rfl, Real.neg_one_le_cos _, Real.cos_le_one _, ?_, ?_, ?_⟩
  · unfold aspectScoreVal
    rw [show ((180 : ℝ) - 180) * 3.1416 / 180 = 0 by ring, Real.cos_zero]
  · unfold aspectScoreVal
    rw [show ((0 : ℝ) - 180) * 3.1416 / 180
        = -(((360 : ℝ) - 180) * 3.1416 / 180) by ring, Real.cos_neg]
  · unfold aspectScoreVal
    rw [show ((0 : ℝ) - 180) * 3.1416 / 180 = -3.1416 by ring, Real.cos_neg]
    exact neg_one_lt_cos_d4

/-- Witness for C4 (amended): the amended properties at the concrete aspect
value 90. -/
theorem c4_amended_witness :
    aspectScoreVal 90 = Real.cos (((90 : ℝ) - 180) * 3.1416 / 180) ∧
    -1 ≤ aspectScoreVal 90 ∧ aspectScoreVal 90 ≤ 1 ∧
    aspectScoreVal 180 = 1 ∧
    aspectScoreVal 0 = aspectScoreVal 360 ∧
    -1 < aspectScoreVal 0 :=
  c4_amended 90

/-- C5: every run dispatches exactly six export jobs, named
NDVI, LST, Precip, Slope, Aspect_Score, Fire_Risk with the literal input
latitude and longitude interpolated, all into the same fixed folder, over the
bounding box of the buffered region, at pixel scale 30. -/
theorem c5_export_jobs (b : Backend) (lon lat : ℚ) :
    (run_fire_risk_analysis b lon lat).length = 6 ∧
    (run_fire_risk_analysis b lon lat).map ExportTask.fname =
      ["NDVI_" ++ toString lat ++ "_" ++ toString lon,
       "LST_" ++ toString lat ++ "_" ++ toString lon,
       "Precip_" ++ toString lat ++ "_" ++ toString lon,
       "Slope_" ++ toString lat ++ "_" ++ toString lon,
       "Aspect_Score_" ++ toString lat ++ "_" ++ toString lon,
       "Fire_Risk_" ++ toString lat ++ "_" ++ toString lon] ∧
    (run_fire_risk_analysis b lon lat).map ExportTask.description =
      (run_fire_risk_analysis b lon lat).map ExportTask.fname ∧
    (run_fire_risk_analysis b lon lat).map ExportTask.folder =
      List.replicate 6 "EarthEnginefatemeh" ∧
    (run_fire_risk_analysis b lon lat).map ExportTask.region =
      List.replicate 6 (Geometry.bounds (Geometry.buffer (Geometry.point lon lat) 30000)) ∧
    (run_fire_risk_analysis b lon lat).map ExportTask.scale = List.replicate 6 30 :=
  ⟨rfl, rfl, rfl, rfl, rfl, rfl⟩

/-- Witness for C5: the six jobs of one concrete run. -/
theorem c5_export_jobs_witness :
    (run_fire_risk_analysis ⟨fun _ => [], fun _ => [], fun _ => 0⟩
      51.389 35.6892).map ExportTask.fname =
      ["NDVI_" ++ toString (35.6892 : ℚ) ++ "_" ++ toString (51.389 : ℚ),
       "LST_" ++ toString (35.6892 : ℚ) ++ "_" ++ toString (51.389 : ℚ),
       "Precip_" ++ toString (35.6892 : ℚ) ++ "_" ++ toString (51.389 : ℚ),
       "Slope_" ++ toString (35.6892 : ℚ) ++ "_" ++ toString (51.389 : ℚ),
       "Aspect_Score_" ++ toString (35.6892 : ℚ) ++ "_" ++ toString (51.389 : ℚ),
       "Fire_Risk_" ++ toString (35.6892 : ℚ) ++ "_" ++ toString (51.389 : ℚ)] :=
  (c5_export_jobs ⟨fun _ => [], fun _ => [], fun _ => 0⟩ 51.389 35.6892).2.1

/-- C6: the retrieval step downloads every item of the folder listing exactly
once, in listing order, each to the local download directory under its remote
title (a later write to the same path overwrites an earlier one), and errors
out when no folder of the well-known name exists. -/
theorem c6_retrieval (drive : Drive) :
    (drive.listFoldersNamed "EarthEnginefatemeh" = [] →
      download_exports_from_drive drive =
        Except.error "Folder EarthEnginefatemeh not found in Drive") ∧
    (∀ first rest, drive.listFoldersNamed "EarthEnginefatemeh" = first :: rest →
      download_exports_from_drive drive =
        Except.ok ((drive.listChildren first.id).map
          (fun f => ("downloads/" ++ f.title, f.content))) ∧
      ((drive.listChildren first.id).map
        (fun f => ("downloads/" ++ f.title, f.content))).length =
        (drive.listChildren first.id).length) ∧
    (∀ (fs : String → Option String) (l : List (String × String)) (w : String × String),
      applyDownloads fs (l ++ [w]) w.1 = some w.2) := by
  refine ⟨?_, ?_, ?_⟩
  · intro h
    simp [download_exports_from_drive, h]
  · intro first rest h
    refine ⟨?_, by simp⟩
    simp [download_exports_from_drive, h]
  · intro fs l w
    unfold applyDownloads
    rw [List.foldl_append]
    simp

/-- Witness for C6: a concrete drive with one matching folder holding two
files of the same title; both are downloaded in order and the second write
wins at the shared local path. -/
theorem c6_retrieval_witness :
    download_exports_from_drive
      ⟨fun n => if n = "EarthEnginefatemeh" then [⟨"id0", "EarthEnginefatemeh", ""⟩] else [],
       fun i => if i = "id0" then
         [⟨"f1", "A.tif", "c1"⟩, ⟨"f2", "A.tif", "c2"⟩] else []⟩ =
      Except.ok [("downloads/A.tif", "c1"), ("downloads/A.tif", "c2")] ∧
    applyDownloads (fun _ => none)
      [("downloads/A.tif", "c1"), ("downloads/A.tif", "c2")] "downloads/A.tif" =
      some "c2" := by
  have h := c6_retrieval
    ⟨fun n => if n = "EarthEnginefatemeh" then [⟨"id0", "EarthEnginefatemeh", ""⟩] else [],
     fun i => if i = "id0" then [⟨"f1", "A.tif", "c1"⟩, ⟨"f2", "A.tif", "c2"⟩] else []⟩
  constructor
  · have h2 := (h.2.1 ⟨"id0", "EarthEnginefatemeh", ""⟩ [] (by simp)).1
    simpa using h2
  · have h3 := h.2.2 (fun _ => none) [("downloads/A.tif", "c1")] ("downloads/A.tif", "c2")
    simpa using h3

lemma pyInt_intCast (n : ℤ) : pyInt (n : ℚ) = n := by
  unfold pyInt
  split
  · exact Int.floor_intCast n
  · rw [show (-(n : ℚ)) = ((-n : ℤ) : ℚ) by push_cast; ring, Int.floor_intCast]
    ring

/-- C9: under exact rational arithmetic, converting integer pixel coordinates
to geographic coordinates and back returns exactly the original pixel pair,
with the fixed map bounds (lat 25..39, lon 44..63) and the 800 by 1000
canvas. -/
theorem c9_pixel_roundtrip (x y : ℤ) :
    geo_to_pixel (pixel_to_geo (x : ℚ) (y : ℚ)).1 (pixel_to_geo (x : ℚ) (y : ℚ)).2
      = (x, y) := by
  have hgeo : pixel_to_geo (x : ℚ) (y : ℚ) =
      (MAX_LAT - (y : ℚ) / HEIGHT * (MAX_LAT - MIN_LAT),
       (x : ℚ) / WIDTH * (MAX_LON - MIN_LON) + MIN_LON) := rfl
  rw [hgeo]
  unfold geo_to_pixel MIN_LAT MAX_LAT MIN_LON MAX_LON WIDTH HEIGHT
  have e1 : ((x : ℚ) / 800 * ((63 : ℚ) - 44) + 44 - 44) / ((63 : ℚ) - 44) * 800
      = (x : ℚ) := by ring
  have e2 : ((39 : ℚ) - ((39 : ℚ) - (y : ℚ) / 1000 * ((39 : ℚ) - 25)))
      / ((39 : ℚ) - 25) * 1000 = (y : ℚ) := by ring
  rw [e1, e2, pyInt_intCast, pyInt_intCast]

/-- Witness for C9: the round trip at the concrete pixel (236, 237). -/
theorem c9_pixel_roundtrip_witness :
    geo_to_pixel (pixel_to_geo ((236 : ℤ) : ℚ) ((237 : ℤ) : ℚ)).1
      (pixel_to_geo ((236 : ℤ) : ℚ) ((237 : ℤ) : ℚ)).2 = (236, 237) :=
  c9_pixel_roundtrip 236 237

/-- C7: each remote signal is queried over its fixed window (2023-07-01 to
2023-08-31 for vegetation and temperature, 2023-06-01 to 2023-08-31 for
precipitation), the cloud-cover-below-10 pre-filter applies only to the
vegetation collection, each collection is reduced with its fixed reducer
(median, mean, sum respectively), and only temperature values are converted
(times 0.02 minus 273.15); vegetation keeps the bare normalized difference
and precipitation the bare sum. -/
theorem c7_fetch_configuration (area : Geometry) (b : Backend) (lon lat : ℚ)
    (img : Image) (p : Pixel) (h : img ≠ []) :
    s2Query area = ⟨"COPERNICUS/S2_SR", some area, some "2023-07-01",
      some "2023-08-31", [("CLOUDY_PIXEL_PERCENTAGE", 10)], none⟩ ∧
    lstQuery area = ⟨"MODIS/006/MOD11A2", some area, some "2023-07-01",
      some "2023-08-31", [], some "LST_Day_1km"⟩ ∧
    chirpsQuery area = ⟨"UCSB-CHG/CHIRPS/DAILY", some area, some "2023-06-01",
      some "2023-08-31", [], none⟩ ∧
    ((run_fire_risk_analysis b lon lat).map ExportTask.image).take 3 =
      [ndviOf (reduceCol Reducer.median (b.query (s2Query (areaOf lon lat)))),
       lstOf (reduceCol Reducer.mean (b.query (lstQuery (areaOf lon lat)))),
       precipOf (reduceCol Reducer.sum (b.query (chirpsQuery (areaOf lon lat))))] ∧
    valAt (lstOf img) p = valAt img p * 0.02 - 273.15 ∧
    valAt (precipOf img) p = valAt img p ∧
    valAt (ndviOf img) p =
      (bandVal img "B8" p - bandVal img "B4" p)
        / (bandVal img "B8" p + bandVal img "B4" p) := by
  obtain ⟨bd, t, rfl⟩ := List.exists_cons_of_ne_nil h
  refine ⟨rfl, rfl, rfl, rfl, ?_, ?_, ?_⟩
  · simp [lstOf, multiplyImg, subtractImg, mapVals, renameImg, valAt]
  · simp [precipOf, renameImg, valAt]
  · simp [ndviOf, ndiff, renameImg, valAt]

/-- Witness for C7: the temperature conversion evaluated on a concrete
one-band reduced raster. -/
theorem c7_fetch_configuration_witness :
    valAt (lstOf [⟨"LST_Day_1km", fun _ => 15000⟩]) (0, 0) = 15000 * 0.02 - 273.15 := by
  have h := (c7_fetch_configuration (Geometry.point 0 0)
    ⟨fun _ => [], fun _ => [], fun _ => 0⟩ 0 0
    [⟨"LST_Day_1km", fun _ => 15000⟩] (0, 0) (List.cons_ne_nil _ _)).2.2.2.2.1
  simpa [valAt] using h

lemma nearest_fold_spec (geo : ℚ × ℚ) :
    ∀ (l : List (String × ℚ × ℚ)) (p0 : String × ℚ × ℚ),
      ∃ pr, l.foldl (nearestStep geo) (some p0, (provDist geo p0 : WithTop ℝ)) =
          (some pr, (provDist geo pr : WithTop ℝ)) ∧
        (∀ q ∈ p0 :: l, provDist geo pr ≤ provDist geo q) ∧
        ∃ l1 l2, p0 :: l = l1 ++ pr :: l2 ∧
          ∀ q ∈ l1, provDist geo pr < provDist geo q := by
  intro l
  induction l with
  | nil =>
    intro p0
    exact ⟨p0, rfl, by simp, [], [], rfl, by simp⟩
  | cons a t ih =>
    intro p0
    by_cases hax : provDist geo a < provDist geo p0
    · have hstep : nearestStep geo (some p0, (provDist geo p0 : WithTop ℝ)) a
          = (some a, (provDist geo a : WithTop ℝ)) := by
        simp [nearestStep, hax]
      obtain ⟨pr, hfold, hmin, l1, l2, hsplit, hlt⟩ := ih a
      have hpa : provDist geo pr ≤ provDist geo a := hmin a (by simp)
      refine ⟨pr, ?_, ?_, p0 :: l1, l2, ?_, ?_⟩
      · rw [List.foldl_cons, hstep]
        exact hfold
      · intro q hq
        rcases List.mem_cons.mp hq with hq | hq
        · exact hq ▸ le_of_lt (lt_of_le_of_lt hpa hax)
        · exact hmin q hq
      · rw [List.cons_append, ← hsplit]
      · intro q hq
        rcases List.mem_cons.mp hq with hq | hq
        · exact hq ▸ lt_of_le_of_lt hpa hax
        · exact hlt q hq
    · have hstep : nearestStep geo (some p0, (provDist geo p0 : WithTop ℝ)) a
          = (some p0, (provDist geo p0 : WithTop ℝ)) := by
        simp [nearestStep, hax]
      obtain ⟨pr, hfold, hmin, l1, l2, hsplit, hlt⟩ := ih p0
      have hp0a : provDist geo p0 ≤ provDist geo a := not_lt.mp hax
      have hprp0 : provDist geo pr ≤ provDist geo p0 := hmin p0 (by simp)
      have hfold2 : (a :: t).foldl (nearestStep geo)
          (some p0, (provDist geo p0 : WithTop ℝ))
          = (some pr, (provDist geo pr : WithTop ℝ)) := by
        rw [List.foldl_cons, hstep]
        exact hfold
      have hmin2 : ∀ q ∈ p0 :: a :: t, provDist geo pr ≤ provDist geo q := by
        intro q hq
        rcases List.mem_cons.mp hq with hq | hq
        · exact hq ▸ hprp0
        · rcases List.mem_cons.mp hq with hq | hq
          · exact hq ▸ le_trans hprp0 hp0a
          · exact hmin q (List.mem_cons.mpr (Or.inr hq))
      cases l1 with
      | nil =>
        have hpr : pr = p0 := by
          simpa using congrArg (fun s => s.headD p0) hsplit.symm
        refine ⟨pr, hfold2, hmin2, [], a :: t, ?_, by simp⟩
        rw [hpr]
        rfl
      | cons x m =>
        have hx : x = p0 := by
          simpa using congrArg (fun s => s.headD p0) hsplit.symm
        have ht : t = m ++ pr :: l2 := by
          have := congrArg List.tail hsplit
          simpa using this
        refine ⟨pr, hfold2, hmin2, p0 :: a :: m, l2, ?_, ?_⟩
        · rw [ht]
          rfl
        · intro q hq
          have hprlt : provDist geo pr < provDist geo p0 :=
            hlt x (by simp) |>.trans_le (le_of_eq (by rw [hx]))
          rcases List.mem_cons.mp hq with hq | hq
          · exact hq ▸ hprlt
          · rcases List.mem_cons.mp hq with hq | hq
            · exact hq ▸ lt_of_lt_of_le hprlt hp0a
            · exact hlt q (by simp [hq])

lemma nearestProvince_spec (geo : ℚ × ℚ) :
    ∃ pr l1 l2,
      nearestProvince geo = some pr ∧
      PROVINCES = l1 ++ pr :: l2 ∧
      (∀ q ∈ PROVINCES, provDist geo pr ≤ provDist geo q) ∧
      (∀ q ∈ l1, provDist geo pr < provDist geo q) := by
  obtain ⟨a, rest, hP⟩ : ∃ a rest, PROVINCES = a :: rest := ⟨_, _, rfl⟩
  have hstep : nearestStep geo (none, ⊤) a
      = (some a, (provDist geo a : WithTop ℝ)) := by
    simp [nearestStep]
  obtain ⟨pr, hfold, hmin, l1, l2, hsplit, hlt⟩ := nearest_fold_spec geo rest a
  refine ⟨pr, l1, l2, ?_, ?_, ?_, hlt⟩
  · unfold nearestProvince
    rw [hP, List.foldl_cons, hstep, hfold]
  · rw [hP, hsplit]
  · intro q hq
    exact hmin q (by rwa [← hP])

/-- C8: the click handler first dispatches all six export jobs, then performs
sixty blocking one-second sleeps (the fixed 60-second wait), and only then
starts the download step; the trace is exactly that sequence. -/
theorem c8_wait_before_download (b : Backend) (x y : ℤ) :
    ∃ pr, nearestProvince (pixel_to_geo (x : ℚ) (y : ℚ)) = some pr ∧
      on_map_click b x y =
        (run_fire_risk_analysis b pr.2.2 pr.2.1).map
          (fun t => Event.exportJob t.description)
          ++ List.replicate 60 (Event.sleep 1) ++ [Event.download] ∧
      ((run_fire_risk_analysis b pr.2.2 pr.2.1).map
        (fun t => Event.exportJob t.description)).length = 6 := by
  obtain ⟨pr, _, _, hsome, _, _, _⟩ := nearestProvince_spec (pixel_to_geo (x : ℚ) (y : ℚ))
  refine ⟨pr, hsome, ?_, rfl⟩
  unfold on_map_click
  rw [hsome]
  have hsleep : (rangeStepNeg 60 0).map (fun _ => Event.sleep 1)
      = List.replicate 60 (Event.sleep 1) := rfl
  rw [hsleep]

/-- Witness for C8: the trace shape at a concrete backend and click point. -/
theorem c8_wait_before_download_witness :
    ∃ pr, nearestProvince (pixel_to_geo ((236 : ℤ) : ℚ) ((237 : ℤ) : ℚ)) = some pr ∧
      on_map_click ⟨fun _ => [], fun _ => [], fun _ => 0⟩ 236 237 =
        (run_fire_risk_analysis ⟨fun _ => [], fun _ => [], fun _ => 0⟩ pr.2.2 pr.2.1).map
          (fun t => Event.exportJob t.description)
          ++ List.replicate 60 (Event.sleep 1) ++ [Event.download] ∧
      ((run_fire_risk_analysis ⟨fun _ => [], fun _ => [], fun _ => 0⟩ pr.2.2 pr.2.1).map
        (fun t => Event.exportJob t.description)).length = 6 :=
  c8_wait_before_download ⟨fun _ => [], fun _ => [], fun _ => 0⟩ 236 237

/-- C10: for every click the handler selects some province (the 30-entry
table is non-empty), the selection minimizes the Euclidean degree-space
distance (hypot of latitude and longitude differences) from the click point
over the whole table, and the strict less-than comparison makes the earliest
entry win every tie: the selected province is strictly closer than every
entry before it in the list. -/
theorem c10_nearest_province (x y : ℤ) :
    PROVINCES.length = 30 ∧
    ∃ pr l1 l2,
      nearestProvince (pixel_to_geo (x : ℚ) (y : ℚ)) = some pr ∧
      PROVINCES = l1 ++ pr :: l2 ∧
      (∀ q ∈ PROVINCES,
        provDist (pixel_to_geo (x : ℚ) (y : ℚ)) pr
          ≤ provDist (pixel_to_geo (x : ℚ) (y : ℚ)) q) ∧
      (∀ q ∈ l1,
        provDist (pixel_to_geo (x : ℚ) (y : ℚ)) pr
          < provDist (pixel_to_geo (x : ℚ) (y : ℚ)) q) :=
  ⟨rfl, nearestProvince_spec (pixel_to_geo (x : ℚ) (y : ℚ))⟩

/-- Witness for C10: the selection property at the concrete click (400, 500). -/
theorem c10_nearest_province_witness :
    PROVINCES.length = 30 ∧
    ∃ pr l1 l2,
      nearestProvince (pixel_to_geo ((400 : ℤ) : ℚ) ((500 : ℤ) : ℚ)) = some pr ∧
      PROVINCES = l1 ++ pr :: l2 ∧
      (∀ q ∈ PROVINCES,
        provDist (pixel_to_geo ((400 : ℤ) : ℚ) ((500 : ℤ) : ℚ)) pr
          ≤ provDist (pixel_to_geo ((400 : ℤ) : ℚ) ((500 : ℤ) : ℚ)) q) ∧
      (∀ q ∈ l1,
        provDist (pixel_to_geo ((400 : ℤ) : ℚ) ((500 : ℤ) : ℚ)) pr
          < provDist (pixel_to_geo ((400 : ℤ) : ℚ) ((500 : ℤ) : ℚ)) q) :=
  c10_nearest_province 400 500

end FireRisk
